import Mathlib

/-!
Verification of the configuration-resolution behaviour of
`src/CoreRoot/settings.py` (a Django settings module).

The module reads typed configuration values from two layered string
sources — the process environment (`os.environ`) and an environment file
loaded by `load_dotenv()` — and builds an immutable settings snapshot:
the secret key, the debug flag (derived from `ENV`), the allowed-hosts
list (a comma-split of `DJANGO_ALLOWED_HOSTS`), the database connection
parameters, the CORS origin list, and a pagination page size.

The embedding below models a string source as an association list, the
`load_dotenv()` merge (which never overrides an existing process
variable), Python's `str.split(",")` (which keeps empty segments), and
the module-level evaluation of `settings.py` as a total function
producing the snapshot.  The module body contains no `raise` and no
fallible operation, so the `Except`-typed entry point always returns
`.ok`; the error type exists to state claims about failure behaviour.
-/

/-- A key→value string source (the process environment or the parsed
environment file), modelled as an association list; lookup returns the
first binding of the key, matching dictionary lookup. -/
abbrev Env : Type := List (String × String)

/-- Lookup of a key in a source: `os.environ.get(k)` / `os.getenv(k)`
with no default, returning `none` when the key is absent. -/
def lookupEnv (e : Env) (k : String) : Option String :=
  (List.find? (fun kv => kv.1 == k) e).map (fun kv => kv.2)

/-- Lookup with a default: `os.environ.get(k, default=d)` /
`os.getenv(k, d)`. -/
def getWithDefault (e : Env) (k d : String) : String :=
  (lookupEnv e k).getD d

/-- The effect of `load_dotenv()` on the process environment: each
binding of the environment file is added only when the key is not
already present in the process environment (python-dotenv's default
`override=False` behaviour), so the process environment takes
precedence. -/
def loadDotenv (environ fileEnv : Env) : Env :=
  environ ++ fileEnv.filter (fun kv => (lookupEnv environ kv.1).isNone)

/-- Python's `str.split(",")` on the character list of the string:
splits at every comma and keeps empty segments, so the result always
has at least one (possibly empty) segment. -/
def splitOnCommaAux : List Char → List (List Char)
  | [] => [[]]
  | c :: rest =>
    match splitOnCommaAux rest with
    | [] => [[]]
    | seg :: segs =>
      if c = ',' then [] :: seg :: segs else (c :: seg) :: segs

/-- Python's `str.split(",")`: `"a,b,,c"` ↦ `["a","b","","c"]`,
`""` ↦ `[""]`. -/
def pySplitComma (s : String) : List String :=
  (splitOnCommaAux s.data).map (fun cs => String.mk cs)

/-- A Python runtime value, as far as the settings snapshot needs to
distinguish: the `PORT` entry of `DATABASES` is a string in the source
(`os.getenv("DATABASE_PORT", "5432")`), never converted to an
integer. -/
inductive PyValue : Type where
  | str : String → PyValue
  | int : Int → PyValue
  deriving Repr, DecidableEq

/-- The resolution errors named by the specification.  The settings
module itself raises neither: its body has no `raise` statement and
every lookup either returns a default or `None`. -/
inductive ConfigError : Type where
  | typeCoercionError : String → ConfigError
  | missingRequiredKeyError : String → ConfigError
  deriving Repr, DecidableEq

/-- The default literal of `SECRET_KEY` in `settings.py`. -/
def defaultSecretKey : String :=
  "qkl+xdr8aimpf-&x(mi7)dwt^-q77aji#j*d#02-5usa32r9!y"

/-- The hard-coded `CORS_ALLOWED_ORIGINS` literal of `settings.py`. -/
def corsAllowedOriginsLiteral : List String :=
  ["http://localhost:3000", "http://127.0.0.1:3000"]

/-- The immutable configuration snapshot produced by evaluating the
settings module: `ENV`, `SECRET_KEY`, `DEBUG`, `ALLOWED_HOSTS`, the
`DATABASES["default"]` string entries, `CORS_ALLOWED_ORIGINS`, and the
REST framework `PAGE_SIZE`. -/
structure ResolvedConfig : Type where
  env : Option String
  secretKey : String
  debug : Bool
  allowedHosts : List String
  databaseName : String
  databaseUser : String
  databasePassword : String
  databaseHost : String
  databasePort : PyValue
  corsAllowedOrigins : List String
  pageSize : Int
  deriving Repr, DecidableEq

/-- Module-level evaluation of `settings.py` after `load_dotenv()`:
each field is the straight translation of the corresponding assignment
(`ENV = os.environ.get("ENV")`, `DEBUG = False if ENV == "PROD" else
True`, `ALLOWED_HOSTS = os.environ.get("DJANGO_ALLOWED_HOSTS",
default="*").split(",")`, the `DATABASES` entries with their default
literals, the literal `CORS_ALLOWED_ORIGINS` list, `PAGE_SIZE = 10`). -/
def resolveSnapshot (environ fileEnv : Env) : ResolvedConfig :=
  let e := loadDotenv environ fileEnv
  let envVal := lookupEnv e "ENV"
  ⟨envVal,
   getWithDefault e "SECRET_KEY" defaultSecretKey,
   (if envVal = some "PROD" then false else true),
   pySplitComma (getWithDefault e "DJANGO_ALLOWED_HOSTS" "*"),
   getWithDefault e "DATABASE_NAME" "coredb",
   getWithDefault e "DATABASE_USER" "core",
   getWithDefault e "DATABASE_PASSWORD" "wCh29&HE&T83",
   getWithDefault e "DATABASE_HOST" "localhost",
   PyValue.str (getWithDefault e "DATABASE_PORT" "5432"),
   corsAllowedOriginsLiteral,
   10⟩

/-- Resolution as a fallible computation: importing `settings.py`
either completes with the snapshot or propagates a raised exception.
The module body raises nothing — every `os.environ.get` / `os.getenv`
call carries a default or tolerates absence, `str.split` is total, and
there is no type conversion — so evaluation always returns `.ok` of
the snapshot. -/
def resolveConfig (environ fileEnv : Env) : Except ConfigError ResolvedConfig :=
  Except.ok (resolveSnapshot environ fileEnv)

-- Helper lemmas ------------------------------------------------------

/-- Splitting a character list on commas never yields an empty list of
segments. -/
theorem splitOnCommaAux_ne_nil (cs : List Char) : splitOnCommaAux cs ≠ [] := by
  induction cs with
  | nil => simp [splitOnCommaAux]
  | cons c rest ih =>
    cases h : splitOnCommaAux rest with
    | nil => exact absurd h ih
    | cons seg segs =>
      simp only [splitOnCommaAux, h]
      split <;> simp

/-- Python's comma split never yields an empty list. -/
theorem pySplitComma_ne_nil (s : String) : pySplitComma s ≠ [] := by
  simp only [pySplitComma, ne_eq, List.map_eq_nil_iff]
  exact splitOnCommaAux_ne_nil s.data

/-- A key bound in the first list of an append is found there. -/
theorem find?_append_of_some {p : String × String → Bool} {l₁ : List (String × String)}
    (l₂ : List (String × String)) {kv : String × String}
    (h : List.find? p l₁ = some kv) : List.find? p (l₁ ++ l₂) = some kv := by
  induction l₁ with
  | nil => simp [List.find?] at h
  | cons a l ih =>
    rw [List.cons_append]
    cases hp : p a with
    | true =>
      rw [List.find?_cons_of_pos _ hp] at h ⊢
      exact h
    | false =>
      rw [List.find?_cons_of_neg _ (by simp [hp])] at h ⊢
      exact ih h

/-- A key present in the process environment keeps its value after the
environment file is merged by `loadDotenv`. -/
theorem lookup_loadDotenv_of_environ {environ : Env} (fileEnv : Env) {k v : String}
    (h : lookupEnv environ k = some v) :
    lookupEnv (loadDotenv environ fileEnv) k = some v := by
  unfold lookupEnv at h ⊢
  unfold loadDotenv
  cases hf : List.find? (fun kv => kv.1 == k) environ with
  | none => rw [hf] at h; simp at h
  | some kv =>
    rw [hf] at h
    rw [find?_append_of_some _ hf]
    exact h

/-- The snapshot depends only on the merged source contents, seen
through lookup: pointwise-equal merged sources yield structurally equal
snapshots. -/
theorem resolveSnapshot_ext {e₁ f₁ e₂ f₂ : Env}
    (h : ∀ k, lookupEnv (loadDotenv e₁ f₁) k = lookupEnv (loadDotenv e₂ f₂) k) :
    resolveSnapshot e₁ f₁ = resolveSnapshot e₂ f₂ := by
  simp only [resolveSnapshot, getWithDefault]
  rw [h "ENV", h "SECRET_KEY", h "DJANGO_ALLOWED_HOSTS", h "DATABASE_NAME",
     h "DATABASE_USER", h "DATABASE_PASSWORD", h "DATABASE_HOST", h "DATABASE_PORT"]

/-- Projection lemma: the debug field of the snapshot is determined by
the env field exactly as `DEBUG = False if ENV == "PROD" else True`. -/
theorem debug_eq_of_env (e f : Env) :
    (resolveSnapshot e f).debug =
      (if (resolveSnapshot e f).env = some "PROD" then false else true) := rfl

/-- Projection lemma: the DATABASE_PORT entry of the snapshot is the
raw looked-up string, wrapped as a Python string value. -/
theorem databasePort_of_lookup {e f : Env} {v : String}
    (h : lookupEnv (loadDotenv e f) "DATABASE_PORT" = some v) :
    (resolveSnapshot e f).databasePort = PyValue.str v := by
  show PyValue.str (getWithDefault (loadDotenv e f) "DATABASE_PORT" "5432") = _
  rw [getWithDefault, h]
  rfl

/-- Whether a string is a decimal integer numeral (optionally signed):
the acceptance criterion for parsing into an integer type.  The settings
module performs no such parse; this predicate only states claims about
coercion. -/
def isIntString (s : String) : Bool :=
  match s.data with
  | [] => false
  | c :: cs =>
    if c == '-' || c == '+' then !cs.isEmpty && cs.all (fun d => d.isDigit)
    else (c :: cs).all (fun d => d.isDigit)

-- Claim theorems -----------------------------------------------------

/-- Claim C1: the debug flag is a pure function of the resolved ENV
value and of nothing else — snapshots agreeing on the resolved ENV
agree on debug, resolving with ENV = "PROD" yields debug = false, and
any other resolved ENV value (including ENV absent from all sources)
yields debug = true. -/
theorem c1_debug_pure_function_of_env (e₁ f₁ e₂ f₂ : Env) :
    ((resolveSnapshot e₁ f₁).env = (resolveSnapshot e₂ f₂).env →
      (resolveSnapshot e₁ f₁).debug = (resolveSnapshot e₂ f₂).debug) ∧
    ((resolveSnapshot e₁ f₁).env = some "PROD" →
      (resolveSnapshot e₁ f₁).debug = false) ∧
    ((resolveSnapshot e₁ f₁).env ≠ some "PROD" →
      (resolveSnapshot e₁ f₁).debug = true) := by
  refine ⟨fun h => ?_, fun h => ?_, fun h => ?_⟩
  · rw [debug_eq_of_env, debug_eq_of_env, h]
  · rw [debug_eq_of_env, if_pos h]
  · rw [debug_eq_of_env, if_neg h]

/-- Concrete instantiation of C1: ENV = "PROD" in the process
environment gives debug = false; empty sources give debug = true. -/
theorem c1_witness :
    (resolveSnapshot [("ENV", "PROD")] []).debug = false ∧
    (resolveSnapshot [] []).debug = true :=
  ⟨(c1_debug_pure_function_of_env [("ENV", "PROD")] [] [] []).2.1 (by decide),
   (c1_debug_pure_function_of_env [] [] [] []).2.2 (by decide)⟩

/-- Claim C2 as stated fails on the code: Python's `split(",")` keeps
empty segments, so the raw value "a,b,,c" resolves to
["a", "b", "", "c"], not ["a", "b", "c"]; and an empty raw value ""
is a present value resolving to [""], not to the default list ["*"]. -/
theorem c2_counterexample :
    (resolveSnapshot [("DJANGO_ALLOWED_HOSTS", "a,b,,c")] []).allowedHosts ≠
      ["a", "b", "c"] ∧
    (resolveSnapshot [("DJANGO_ALLOWED_HOSTS", "a,b,,c")] []).allowedHosts =
      ["a", "b", "", "c"] ∧
    (resolveSnapshot [("DJANGO_ALLOWED_HOSTS", "")] []).allowedHosts ≠ ["*"] ∧
    (resolveSnapshot [("DJANGO_ALLOWED_HOSTS", "")] []).allowedHosts = [""] := by
  refine ⟨by decide, by decide, by decide, by decide⟩

/-- Claim C2 amended: a present raw value for the allowed-hosts key is
split on comma with empty segments KEPT — "a,b,,c" resolves to
["a", "b", "", "c"] and the empty raw value "" resolves to [""], not to
the caller default list; only an absent key falls back to the default. -/
theorem c2_allowed_hosts_split (e f : Env) (v : String)
    (h : lookupEnv (loadDotenv e f) "DJANGO_ALLOWED_HOSTS" = some v) :
    (resolveSnapshot e f).allowedHosts = pySplitComma v ∧
    pySplitComma "a,b,,c" = ["a", "b", "", "c"] ∧
    pySplitComma "" = [""] := by
  refine ⟨?_, by decide, by decide⟩
  show pySplitComma (getWithDefault (loadDotenv e f) "DJANGO_ALLOWED_HOSTS" "*") = _
  rw [getWithDefault, h]
  rfl

/-- Concrete instantiation of the amended C2 at the raw value
"a,b,,c" supplied by the process environment. -/
theorem c2_witness :
    (resolveSnapshot [("DJANGO_ALLOWED_HOSTS", "a,b,,c")] []).allowedHosts =
      ["a", "b", "", "c"] := by
  have h := c2_allowed_hosts_split [("DJANGO_ALLOWED_HOSTS", "a,b,,c")] []
    "a,b,,c" (by decide)
  rw [h.1]
  exact h.2.1

/-- Claim C3: resolving against empty sources yields each declared
default — the SECRET_KEY literal, "*" for DJANGO_ALLOWED_HOSTS,
"coredb", "core", "wCh29&HE&T83", "localhost" and "5432" for the
database keys — and the resulting snapshot is exactly the all-defaults
snapshot (ENV absent, debug on, hosts ["*"]). -/
theorem c3_empty_sources_yield_defaults :
    getWithDefault (loadDotenv [] []) "SECRET_KEY" defaultSecretKey =
      defaultSecretKey ∧
    getWithDefault (loadDotenv [] []) "DJANGO_ALLOWED_HOSTS" "*" = "*" ∧
    getWithDefault (loadDotenv [] []) "DATABASE_NAME" "coredb" = "coredb" ∧
    getWithDefault (loadDotenv [] []) "DATABASE_USER" "core" = "core" ∧
    getWithDefault (loadDotenv [] []) "DATABASE_PASSWORD" "wCh29&HE&T83" =
      "wCh29&HE&T83" ∧
    getWithDefault (loadDotenv [] []) "DATABASE_HOST" "localhost" = "localhost" ∧
    getWithDefault (loadDotenv [] []) "DATABASE_PORT" "5432" = "5432" ∧
    resolveSnapshot [] [] =
      ⟨none, defaultSecretKey, true, ["*"], "coredb", "core", "wCh29&HE&T83",
       "localhost", PyValue.str "5432", corsAllowedOriginsLiteral, 10⟩ :=
  ⟨rfl, rfl, rfl, rfl, rfl, rfl, rfl, rfl⟩

/-- Claim C4: a key present in the first source (the process
environment) resolves to that source's value even when the later source
(the loaded environment file) also binds it, both for plain lookup and
for lookup with a default. -/
theorem c4_first_source_precedence (environ fileEnv : Env) (k v d : String)
    (h : lookupEnv environ k = some v) :
    lookupEnv (loadDotenv environ fileEnv) k = some v ∧
    getWithDefault (loadDotenv environ fileEnv) k d = v := by
  have h2 := lookup_loadDotenv_of_environ fileEnv h
  exact ⟨h2, by rw [getWithDefault, h2]; rfl⟩

/-- Concrete instantiation of C4: DATABASE_HOST bound in both sources
resolves to the process-environment value. -/
theorem c4_witness :
    lookupEnv (loadDotenv [("DATABASE_HOST", "db.internal")]
      [("DATABASE_HOST", "localhost")]) "DATABASE_HOST" = some "db.internal" :=
  (c4_first_source_precedence [("DATABASE_HOST", "db.internal")]
    [("DATABASE_HOST", "localhost")] "DATABASE_HOST" "db.internal" "localhost"
    (by decide)).1

/-- Claim C5 as stated fails on the code: with
sources = [{"DATABASE_PORT": "6543"}] the resolved DATABASE_PORT is the
STRING "6543" (the code performs no integer coercion), which is not the
integer 6543. -/
theorem c5_counterexample :
    (resolveSnapshot [("DATABASE_PORT", "6543")] []).databasePort =
      PyValue.str "6543" ∧
    (resolveSnapshot [("DATABASE_PORT", "6543")] []).databasePort ≠
      PyValue.int 6543 :=
  ⟨rfl, by decide⟩

/-- Claim C5 amended: a present raw value for DATABASE_PORT is kept
verbatim as a string in the snapshot — no coercion to the integer type
ever happens. -/
theorem c5_port_stays_string (e f : Env) (v : String)
    (h : lookupEnv (loadDotenv e f) "DATABASE_PORT" = some v) :
    (resolveSnapshot e f).databasePort = PyValue.str v :=
  databasePort_of_lookup h

/-- Concrete instantiation of the amended C5 at the raw value "6543". -/
theorem c5_witness :
    (resolveSnapshot [("DATABASE_PORT", "6543")] []).databasePort =
      PyValue.str "6543" :=
  c5_port_stays_string [("DATABASE_PORT", "6543")] [] "6543" (by decide)

/-- Claim C6 as stated fails on the code: with the present raw value
"not-a-number" for DATABASE_PORT — a string that is not an integer
numeral — resolution does NOT fail with TypeCoercionError; it completes
with a snapshot carrying the raw string. -/
theorem c6_counterexample :
    lookupEnv (loadDotenv [("DATABASE_PORT", "not-a-number")] [])
      "DATABASE_PORT" = some "not-a-number" ∧
    isIntString "not-a-number" = false ∧
    resolveConfig [("DATABASE_PORT", "not-a-number")] [] =
      Except.ok (resolveSnapshot [("DATABASE_PORT", "not-a-number")] []) ∧
    (resolveSnapshot [("DATABASE_PORT", "not-a-number")] []).databasePort =
      PyValue.str "not-a-number" :=
  ⟨by decide, by decide, rfl, rfl⟩

/-- Claim C6 amended: resolution never fails with TypeCoercionError —
even a present raw value for the integer-like key DATABASE_PORT that is
not an integer numeral is accepted, resolution completes with a
snapshot, and the offending value is stored verbatim as a string. -/
theorem c6_no_coercion_failure (e f : Env) (v : String)
    (h : lookupEnv (loadDotenv e f) "DATABASE_PORT" = some v)
    (_hv : isIntString v = false) :
    resolveConfig e f = Except.ok (resolveSnapshot e f) ∧
    (resolveSnapshot e f).databasePort = PyValue.str v :=
  ⟨rfl, databasePort_of_lookup h⟩

/-- Concrete instantiation of the amended C6 at the non-numeral raw
value "not-a-number". -/
theorem c6_witness :
    resolveConfig [("DATABASE_PORT", "not-a-number")] [] =
      Except.ok (resolveSnapshot [("DATABASE_PORT", "not-a-number")] []) ∧
    (resolveSnapshot [("DATABASE_PORT", "not-a-number")] []).databasePort =
      PyValue.str "not-a-number" :=
  c6_no_coercion_failure [("DATABASE_PORT", "not-a-number")] [] "not-a-number"
    (by decide) (by decide)

/-- Claim C7 as stated fails on the code: ENV is a key with no declared
default, and with empty sources it has no value anywhere, yet resolution
does not fail with MissingRequiredKeyError — it produces a snapshot, in
which ENV is the absent marker and debug is true. -/
theorem c7_counterexample :
    lookupEnv (loadDotenv [] []) "ENV" = none ∧
    resolveConfig [] [] = Except.ok (resolveSnapshot [] []) ∧
    (resolveSnapshot [] []).env = none ∧
    (resolveSnapshot [] []).debug = true :=
  ⟨rfl, rfl, rfl, rfl⟩

/-- Claim C7 amended: a key with no declared default (ENV) that is
absent from every source does not halt startup — resolution still
produces a snapshot, in which the key resolves to the absent marker
None and the derived debug flag is true. -/
theorem c7_absent_env_tolerated (e f : Env)
    (h : lookupEnv (loadDotenv e f) "ENV" = none) :
    resolveConfig e f = Except.ok (resolveSnapshot e f) ∧
    (resolveSnapshot e f).env = none ∧
    (resolveSnapshot e f).debug = true := by
  have henv : (resolveSnapshot e f).env = none := h
  refine ⟨rfl, henv, ?_⟩
  rw [debug_eq_of_env, henv]
  rfl

/-- Concrete instantiation of the amended C7 at empty sources. -/
theorem c7_witness :
    resolveConfig [] [] = Except.ok (resolveSnapshot [] []) ∧
    (resolveSnapshot [] []).env = none ∧
    (resolveSnapshot [] []).debug = true :=
  c7_absent_env_tolerated [] [] (by decide)

/-- Claim C8: resolution is deterministic and idempotent — any two
resolution runs over sources with identical contents (pointwise-equal
lookups on the merged source, in particular two runs over the very same
sources) return structurally equal ResolvedConfig snapshots. -/
theorem c8_resolution_idempotent (e₁ f₁ e₂ f₂ : Env)
    (h : ∀ k, lookupEnv (loadDotenv e₁ f₁) k = lookupEnv (loadDotenv e₂ f₂) k) :
    resolveConfig e₁ f₁ = resolveConfig e₂ f₂ := by
  rw [resolveConfig, resolveConfig, resolveSnapshot_ext h]

/-- Concrete instantiation of C8: two runs over the same sources. -/
theorem c8_witness :
    resolveConfig [("ENV", "PROD")] [("DATABASE_PORT", "6543")] =
      resolveConfig [("ENV", "PROD")] [("DATABASE_PORT", "6543")] :=
  c8_resolution_idempotent [("ENV", "PROD")] [("DATABASE_PORT", "6543")]
    [("ENV", "PROD")] [("DATABASE_PORT", "6543")] (fun _ => rfl)

/-- Claim C9 as stated fails on the code: CORS_ALLOWED_ORIGINS is a
hard-coded literal list, so a CORS-origins value supplied in a source
does not determine the resolved list — supplying
"http://example.com" still yields the fixed literal. -/
theorem c9_counterexample :
    ResolvedConfig.corsAllowedOrigins
        (resolveSnapshot [("CORS_ALLOWED_ORIGINS", "http://example.com")] []) ≠
      ["http://example.com"] ∧
    ResolvedConfig.corsAllowedOrigins
        (resolveSnapshot [("CORS_ALLOWED_ORIGINS", "http://example.com")] []) =
      ["http://localhost:3000", "http://127.0.0.1:3000"] :=
  ⟨by decide, rfl⟩

/-- Claim C9 amended: the CORS origins list is the fixed literal
["http://localhost:3000", "http://127.0.0.1:3000"], independent of
every source value — it is not resolved from the sources at all. -/
theorem c9_cors_origins_constant (e f : Env) :
    (resolveSnapshot e f).corsAllowedOrigins = corsAllowedOriginsLiteral ∧
    corsAllowedOriginsLiteral =
      ["http://localhost:3000", "http://127.0.0.1:3000"] :=
  ⟨rfl, rfl⟩

/-- Claim C10: the resolved allowed-hosts list is non-empty for every
source content — comma-splitting any string yields at least one
segment — and the default "*" yields exactly ["*"]. -/
theorem c10_allowed_hosts_nonempty (e f : Env) (s : String) :
    0 < (resolveSnapshot e f).allowedHosts.length ∧
    0 < (pySplitComma s).length ∧
    (resolveSnapshot [] []).allowedHosts = ["*"] := by
  refine ⟨?_, List.length_pos.mpr (pySplitComma_ne_nil s), rfl⟩
  show 0 < (pySplitComma (getWithDefault (loadDotenv e f) "DJANGO_ALLOWED_HOSTS" "*")).length
  exact List.length_pos.mpr (pySplitComma_ne_nil _)
